import Mathlib

/-!
Verification of the AutoML Analytics Platform core against its specification.

The development shallowly embeds the decision logic of the repository's ML
engine (`backend/ml_engine/data_profiling.py`, `dataset_intelligence.py`,
`pipeline_selector.py`, `automl_engine.py`, and the validation code in
`backend/routes/train_simple.py` / `ml_engine/data_ingestion_v2.py`) as
executable Lean functions, and proves or refutes the specification's claims
about them.

Conventions of the embedding:
* Python floats are modelled as rationals (`ℚ`).
* A pandas column is a `List (Option PyVal)`; `none` is a missing value (NaN).
* Ratio thresholds that Python computes with float division (`a / n > c`) are
  embedded in the exact integer form (`d * a > c' * n`), which is equivalent
  for positive `n`; each site is noted.
* Fallible Python code (exceptions) is modelled with `Except` / `Option`.
-/

namespace AutoMLPlatform

/-! ## Value universe for column cells

Cells of a pandas `object` column can hold ints, floats, strings and booleans.
Python's `==`, used by `set(...).issubset(...)` and by uniqueness counting,
identifies `True` with `1`, `False` with `0`, and ints with equal floats.
-/

/-- A concrete Python value stored in a column cell. -/
inductive PyVal where
  | int (n : ℤ)
  | float (q : ℚ)
  | str (s : String)
  | bool (b : Bool)
deriving DecidableEq, Repr

/-- Python `==` on cell values: numeric values compare by value across
`int`/`float`/`bool` (`True == 1`, `False == 0`); strings only equal strings. -/
def pyEq : PyVal → PyVal → Bool
  | .int a, .int b => a == b
  | .int a, .float q => Rat.ofInt a == q
  | .int a, .bool b => a == (if b then 1 else 0)
  | .float p, .float q => p == q
  | .float q, .int a => q == Rat.ofInt a
  | .float q, .bool b => q == (if b then Rat.ofInt 1 else Rat.ofInt 0)
  | .bool a, .bool b => a == b
  | .bool b, .int a => (if b then (1 : ℤ) else 0) == a
  | .bool b, .float q => (if b then Rat.ofInt 1 else Rat.ofInt 0) == q
  | .str a, .str b => a == b
  | _, _ => false

/-- The boolean-like literal strings accepted by the profiler. -/
def boolLikeStrs : List String := ["True", "False", "true", "false"]

/-- Membership in the Python set `{0, 1, True, False, 'True', 'False', 'true',
'false'}` under Python equality (`True`/`False` collapse into `1`/`0`, so the
set has the six distinct members `0, 1, 'True', 'False', 'true', 'false'`). -/
def isBoolLike : PyVal → Bool
  | .int n => n == 0 || n == 1
  | .float q => q == Rat.ofInt 0 || q == Rat.ofInt 1
  | .bool _ => true
  | .str s => boolLikeStrs.contains s

/-- Distinct values of a list under Python equality, keeping first occurrences:
the embedding of `series.unique()` / `series.nunique()`. -/
def pyDedup : List PyVal → List PyVal
  | [] => []
  | v :: vs => v :: (pyDedup vs).filter (fun w => !pyEq v w)

/-- Python `str()` of a cell value, used by `astype(str)` sampling. Floats are
rendered with a trailing `.0` for integral values; no theorem in this file
depends on the rendering of non-integral floats. -/
def pyStr : PyVal → String
  | .int n => toString n
  | .bool b => if b then "True" else "False"
  | .str s => s
  | .float q => if q.den == 1 then toString q.num ++ ".0" else toString q

/-- The pandas dtype of a column, as far as `_detect_data_type` inspects it:
`series.dtype == 'bool'`, `pd.api.types.is_numeric_dtype`,
`pd.api.types.is_datetime64_any_dtype`, and `series.dtype == 'object'`.
`category` stands for any remaining extension dtype. -/
inductive Dtype where
  | boolDt
  | int64
  | float64
  | datetime64
  | object
  | category
deriving DecidableEq, Repr

/-- `pd.api.types.is_numeric_dtype`: int, float and bool dtypes are numeric. -/
def isNumericDtype : Dtype → Bool
  | .boolDt => true
  | .int64 => true
  | .float64 => true
  | _ => false

/-! ## `DataProfilingEngine._detect_data_type` and its helpers -/

/-- Semantic type assigned by the profiler (`DataType` enum in
`data_profiling.py`). -/
inductive DataType where
  | NUMERICAL
  | CATEGORICAL
  | ORDINAL
  | BOOLEAN
  | DATETIME
  | TEXT
  | MIXED
  | UNKNOWN
deriving DecidableEq, Repr

/-- `\d` of the datetime regexes. -/
def isDigitCh (c : Char) : Bool := c.isDigit

/-- Character shape of the regex `\d{4}-\d{2}-\d{2}`. -/
def dateShape1 : List (Char → Bool) :=
  [isDigitCh, isDigitCh, isDigitCh, isDigitCh, fun c => c == '-',
   isDigitCh, isDigitCh, fun c => c == '-', isDigitCh, isDigitCh]

/-- Character shape of the regex `\d{2}/\d{2}/\d{4}`. -/
def dateShape2 : List (Char → Bool) :=
  [isDigitCh, isDigitCh, fun c => c == '/', isDigitCh, isDigitCh,
   fun c => c == '/', isDigitCh, isDigitCh, isDigitCh, isDigitCh]

/-- Character shape of the regex `\d{2}-\d{2}-\d{4}`. -/
def dateShape3 : List (Char → Bool) :=
  [isDigitCh, isDigitCh, fun c => c == '-', isDigitCh, isDigitCh,
   fun c => c == '-', isDigitCh, isDigitCh, isDigitCh, isDigitCh]

/-- Does the character list start with the given shape? -/
def matchShapeAt : List (Char → Bool) → List Char → Bool
  | [], _ => true
  | _ :: _, [] => false
  | p :: ps, c :: cs => p c && matchShapeAt ps cs

/-- `re.search`: does any position of the character list match the shape? -/
def containsShape (shape : List (Char → Bool)) : List Char → Bool
  | [] => matchShapeAt shape []
  | c :: t => matchShapeAt shape (c :: t) || containsShape shape t

/-- Does a string value match one of the three datetime patterns anywhere? -/
def matchesAnyDatePat (s : String) : Bool :=
  containsShape dateShape1 s.toList || containsShape dateShape2 s.toList ||
    containsShape dateShape3 s.toList

/-- `DataProfilingEngine._is_datetime_column`: sample the first
`min(100, len)` non-null values as strings and require more than 70 % of them
to match a datetime pattern.  The float test `matches / sample_size > 0.7` is
embedded as the exact integer inequality `10 * matches > 7 * sample_size`. -/
def is_datetime_column (vals : List PyVal) : Bool :=
  let sampleSize := min 100 vals.length
  let sample := (vals.take sampleSize).map pyStr
  let nMatches := (sample.filter matchesAnyDatePat).length
  10 * nMatches > 7 * sampleSize

/-- Number of whitespace-separated words, as counted by Python `str.split()`
(maximal non-whitespace runs). The flag records whether we are inside a word. -/
def wordCount (inW : Bool) : List Char → ℕ
  | [] => 0
  | c :: t =>
    if c.isWhitespace then wordCount false t
    else (if inW then 0 else 1) + wordCount true t

/-- `DataProfilingEngine._is_text_column`: sample the first `min(100, len)`
non-null values as strings; text when the average length exceeds 20 characters
or the average word count exceeds 3.  The float tests `mean(len) > 20` and
`mean(words) > 3` are embedded as `sum(len) > 20 * n` and
`sum(words) > 3 * n`. -/
def is_text_column (vals : List PyVal) : Bool :=
  let sampleSize := min 100 vals.length
  let sample := (vals.take sampleSize).map pyStr
  let totalLen := (sample.map String.length).sum
  let totalWords := (sample.map (fun s => wordCount false s.toList)).sum
  totalLen > 20 * sampleSize || totalWords > 3 * sampleSize

/-- `DataProfilingEngine._detect_data_type`.  The boolean test
`set(non_null.unique()).issubset({0,1,True,False,'True','False','true','false'})`
is elementwise, hence embedded as `nonNull.all isBoolLike`; the categorical
test `cardinality_ratio < 0.1 and unique < 50` is embedded with the exact
integer form `10 * unique < len`. -/
def detect_data_type (dtype : Dtype) (col : List (Option PyVal)) : DataType :=
  let nonNull := col.filterMap id
  if nonNull.isEmpty then .UNKNOWN
  else if dtype == .boolDt || nonNull.all isBoolLike then .BOOLEAN
  else if isNumericDtype dtype then .NUMERICAL
  else if dtype == .datetime64 then .DATETIME
  else if is_datetime_column nonNull then .DATETIME
  else if 10 * (pyDedup nonNull).length < nonNull.length &&
      (pyDedup nonNull).length < 50 then .CATEGORICAL
  else if is_text_column nonNull then .TEXT
  else if dtype == .object then .CATEGORICAL
  else .UNKNOWN

/-! ## `DataProfilingEngine._assess_column_quality` -/

/-- Quality flags (`QualityIssue` enum in `data_profiling.py`). -/
inductive QualityIssue where
  | HIGH_MISSING
  | CONSTANT_COLUMN
  | HIGH_CARDINALITY
  | OUTLIERS_DETECTED
  | INCONSISTENT_FORMAT
  | DUPLICATE_ROWS
  | SKEWED_DISTRIBUTION
deriving DecidableEq, Repr

/-- The fields of a `ColumnProfile` that the classifier, quality assessment and
pipeline selector read.  `quality_issues` holds the flags stored by
`_assess_column_quality`; `outlier_count` and `skewness` are `none` for
non-numeric columns (Python `None`). -/
structure ColumnProfile where
  data_type : DataType
  missing_count : ℕ
  missing_percentage : ℚ
  unique_count : ℕ
  unique_percentage : ℚ
  outlier_count : Option ℕ := none
  skewness : Option ℚ := none
  quality_issues : List QualityIssue := []
deriving DecidableEq, Repr

/-- Truthiness of `profile.outlier_count and profile.outlier_count > 0`
combined with the inner percentage test: the count must be present and
non-zero, and `(outliers / total_rows) * 100 > 5` is embedded as
`100 * n > 5 * total_rows`. -/
def outlierTruthy (o : Option ℕ) (total_rows : ℕ) : Bool :=
  match o with
  | none => false
  | some n => n != 0 && 100 * n > 5 * total_rows

/-- Truthiness of `profile.skewness and abs(profile.skewness) > 2`. -/
def skewTruthy (s : Option ℚ) : Bool :=
  match s with
  | none => false
  | some s => s != 0 && |s| > 2

/-- The quality flags appended by `_assess_column_quality`, in program order. -/
def column_quality_issues (p : ColumnProfile) (total_rows : ℕ) : List QualityIssue :=
  (if p.missing_percentage > 50 then [QualityIssue.HIGH_MISSING] else []) ++
  (if p.unique_count ≤ 1 then [QualityIssue.CONSTANT_COLUMN] else []) ++
  (if p.data_type = .CATEGORICAL ∧ p.unique_percentage > 80 then
    [QualityIssue.HIGH_CARDINALITY] else []) ++
  (if p.data_type = .NUMERICAL ∧ outlierTruthy p.outlier_count total_rows then
    [QualityIssue.OUTLIERS_DETECTED] else []) ++
  (if p.data_type = .NUMERICAL ∧ skewTruthy p.skewness then
    [QualityIssue.SKEWED_DISTRIBUTION] else [])

/-- The quality score computed at the end of `_assess_column_quality`:
`score = 100 - min(missing%, 50) - 10 * len(issues)`, overridden to `0` for a
constant column, then clamped below by `max(0, score)`. -/
def assess_column_quality (p : ColumnProfile) (total_rows : ℕ) : ℚ :=
  let issues := column_quality_issues p total_rows
  let score : ℚ := 100 - min p.missing_percentage 50 - 10 * (issues.length : ℚ)
  let score := if p.unique_count ≤ 1 then 0 else score
  max 0 score

/-! ## `DatasetIntelligenceEngine`: column roles -/

/-- Problem types (`ProblemType` enum in `dataset_intelligence.py`). -/
inductive ProblemType where
  | BINARY_CLASSIFICATION
  | MULTICLASS_CLASSIFICATION
  | REGRESSION
  | TIME_SERIES
  | TEXT_ANALYTICS
  | EXPLORATORY
  | UNSUPERVISED
deriving DecidableEq, Repr

/-- Column roles (`ColumnRole` enum in `dataset_intelligence.py`). -/
inductive ColumnRole where
  | TARGET
  | FEATURE
  | IDENTIFIER
  | TIMESTAMP
  | TEXT
  | IGNORE
deriving DecidableEq, Repr

/-- The `roles` dictionary built by `_analyze_column_roles`. -/
structure Roles where
  target : Option String := none
  features : List String := []
  identifiers : List String := []
  timestamps : List String := []
  text : List String := []
  ignore : List String := []
deriving DecidableEq, Repr

/-- `re.search(pat, s)` for a plain-word pattern is substring containment:
`s.splitOn pat` has more than one piece exactly when `pat` occurs in `s`. -/
def containsStr (s pat : String) : Bool := (s.splitOn pat).length != 1

/-- The `ID_PATTERNS` check: `id$`, `^id`, `_id$`, `key$`, `index$` on the
lowercased name. -/
def matches_id_pattern (s : String) : Bool :=
  s.endsWith "id" || s.startsWith "id" || s.endsWith "_id" ||
    s.endsWith "key" || s.endsWith "index"

/-- The `TIME_PATTERNS` check: `time`, `date`, `timestamp`, `created`,
`updated` as substrings of the lowercased name. -/
def matches_time_pattern (s : String) : Bool :=
  containsStr s "time" || containsStr s "date" || containsStr s "timestamp" ||
    containsStr s "created" || containsStr s "updated"

/-- The `TARGET_PATTERNS` check: `target`, `label`, `class`, `outcome`,
`result`, `prediction` as substrings of the lowercased name. -/
def matches_target_pattern (s : String) : Bool :=
  containsStr s "target" || containsStr s "label" || containsStr s "class" ||
    containsStr s "outcome" || containsStr s "result" ||
    containsStr s "prediction"

/-- `DatasetIntelligenceEngine._classify_column_role`, in source order. -/
def classify_column_role (name : String) (p : ColumnProfile) : ColumnRole :=
  let lower := name.toLower
  if matches_id_pattern lower then .IDENTIFIER
  else if matches_time_pattern lower then .TIMESTAMP
  else if p.data_type = .DATETIME then .TIMESTAMP
  else if matches_target_pattern lower then .TARGET
  else if p.data_type = .TEXT then .TEXT
  else if p.unique_count ≤ 1 ∨ p.missing_percentage > 90 then .IGNORE
  else if p.unique_percentage > 95 ∧ p.unique_count > 100 then .IDENTIFIER
  else .FEATURE

/-- One iteration of the role-assignment loop: the first target-pattern match
claims the `target` slot, later ones are demoted to features; every other role
appends the column to its list. -/
def assignRole (r : Roles) (name : String) : ColumnRole → Roles
  | .TARGET =>
    if r.target = none then { r with target := some name }
    else { r with features := r.features ++ [name] }
  | .FEATURE => { r with features := r.features ++ [name] }
  | .IDENTIFIER => { r with identifiers := r.identifiers ++ [name] }
  | .TIMESTAMP => { r with timestamps := r.timestamps ++ [name] }
  | .TEXT => { r with text := r.text ++ [name] }
  | .IGNORE => { r with ignore := r.ignore ++ [name] }

/-- The role-assignment loop of `_analyze_column_roles` over the profiled
columns (the `column_profiles` dict preserves dataframe column order). -/
def roles_pass1 (cols : List (String × ColumnProfile)) : Roles :=
  cols.foldl (fun r c => assignRole r c.1 (classify_column_role c.1 c.2)) {}

/-- Profile lookup `column_profiles[col_name]`; the default is never reached
because the inference only scores names coming from the profiled columns. -/
def lookupProfile (cols : List (String × ColumnProfile)) (n : String) :
    ColumnProfile :=
  match cols.find? (fun c => c.1 == n) with
  | some c => c.2
  | none => { data_type := .UNKNOWN, missing_count := 0,
              missing_percentage := 0, unique_count := 0,
              unique_percentage := 0 }

/-- The target-likelihood score of `_infer_target_column`: +30 for moderate
cardinality, +20 for categorical/boolean, +15 for one of the last three
columns, −0.5 per missing percentage point, −20 for very high cardinality.
`list(df.columns).index(col_name) >= len(df.columns) - 3` is embedded with
truncated ℕ subtraction, which agrees with Python (for fewer than 3 columns
the Python right side is negative and the test is always true). -/
def target_likelihood (cols : List (String × ColumnProfile)) (name : String) :
    ℚ :=
  let p := lookupProfile cols name
  let position := (cols.map Prod.fst).indexOf name
  (if 2 ≤ p.unique_count ∧ p.unique_count ≤ 50 then (30 : ℚ) else 0)
    + (if p.data_type = .CATEGORICAL ∨ p.data_type = .BOOLEAN then (20 : ℚ) else 0)
    + (if position ≥ cols.length - 3 then (15 : ℚ) else 0)
    - p.missing_percentage * mkRat 1 2
    - (if p.unique_count > 100 then (20 : ℚ) else 0)

/-- Python `max(xs, key=f)` over a non-empty sequence: keep the current
maximum, replacing it only on a strictly greater key, so the first maximal
element wins. -/
def pickFirstMax {α : Type} (key : α → ℚ) (h : α) (t : List α) : α :=
  t.foldl (fun acc x => if key acc < key x then x else acc) h

/-- `DatasetIntelligenceEngine._infer_target_column`: score every feature
candidate, take the first highest-scoring one (`max` over the insertion-ordered
score dict), and adopt it as target only above the threshold 20, removing it
from the feature list (`list.remove` drops the first occurrence). -/
def infer_target_column (cols : List (String × ColumnProfile)) (r : Roles) :
    Roles :=
  match r.features with
  | [] => r
  | c :: cs =>
    let best := pickFirstMax (target_likelihood cols) c cs
    if target_likelihood cols best > 20 then
      { r with target := some best, features := r.features.erase best }
    else r

/-- `DatasetIntelligenceEngine._analyze_column_roles`: assign a role to every
column, then run target inference only when no target-pattern column claimed
the slot. -/
def analyze_column_roles (cols : List (String × ColumnProfile)) : Roles :=
  let r := roles_pass1 cols
  if r.target = none then infer_target_column cols r else r

/-- All column names placed in the role assignment, the `target` slot first. -/
def rolesNames (r : Roles) : List String :=
  r.target.toList ++ r.features ++ r.identifiers ++ r.timestamps ++
    r.text ++ r.ignore

/-! ## `DatasetIntelligenceEngine._determine_problem_type` -/

/-- `column_profiles[target_col]` as an association-list lookup; `none` is the
`KeyError` raised when the target name is not among the profiled columns. -/
def findProfile (cols : List (String × ColumnProfile)) (n : String) :
    Option ColumnProfile :=
  (cols.find? (fun c => c.1 == n)).map Prod.snd

/-- `DatasetIntelligenceEngine._determine_problem_type` on the raw role
assignment and profiles.  `if not target_col` is Python truthiness, so both a
missing target and a target named by the empty string take the first
(exploratory) branch; the profile lookup happens before the timestamp check,
exactly as in the source. -/
def determine_problem_type (roles : Roles)
    (cols : List (String × ColumnProfile)) : Option (ProblemType × ℚ) :=
  let noTarget : Bool :=
    match roles.target with
    | none => true
    | some t => t == ""
  if noTarget then some (.EXPLORATORY, mkRat 6 10)
  else
    match roles.target with
    | none => some (.EXPLORATORY, mkRat 6 10)
    | some t =>
      match findProfile cols t with
      | none => none
      | some tp =>
        if roles.timestamps ≠ [] then some (.TIME_SERIES, mkRat 8 10)
        else if tp.data_type = .TEXT ∨ roles.text ≠ [] then
          some (.TEXT_ANALYTICS, mkRat 7 10)
        else if tp.data_type = .NUMERICAL then
          if tp.unique_count ≤ 2 then
            some (.BINARY_CLASSIFICATION, mkRat 9 10)
          else if tp.unique_count ≤ 20 then
            some (.MULTICLASS_CLASSIFICATION, mkRat 8 10)
          else some (.REGRESSION, mkRat 9 10)
        else if tp.data_type = .CATEGORICAL ∨ tp.data_type = .BOOLEAN then
          if tp.unique_count ≤ 2 then
            some (.BINARY_CLASSIFICATION, mkRat 95 100)
          else some (.MULTICLASS_CLASSIFICATION, mkRat 9 10)
        else some (.EXPLORATORY, mkRat 4 10)

/-- The problem-type rule exactly as the claim words it: the first branch fires
only when *no* target is set; every set target, whatever its name, is looked
up and classified by the remaining cases. -/
def claimed_problem_type (roles : Roles)
    (cols : List (String × ColumnProfile)) : Option (ProblemType × ℚ) :=
  match roles.target with
  | none => some (.EXPLORATORY, mkRat 6 10)
  | some t =>
    match findProfile cols t with
    | none => none
    | some tp =>
      if roles.timestamps ≠ [] then some (.TIME_SERIES, mkRat 8 10)
      else if tp.data_type = .TEXT ∨ roles.text ≠ [] then
        some (.TEXT_ANALYTICS, mkRat 7 10)
      else if tp.data_type = .NUMERICAL then
        if tp.unique_count ≤ 2 then
          some (.BINARY_CLASSIFICATION, mkRat 9 10)
        else if tp.unique_count ≤ 20 then
          some (.MULTICLASS_CLASSIFICATION, mkRat 8 10)
        else some (.REGRESSION, mkRat 9 10)
      else if tp.data_type = .CATEGORICAL ∨ tp.data_type = .BOOLEAN then
        if tp.unique_count ≤ 2 then
          some (.BINARY_CLASSIFICATION, mkRat 95 100)
        else some (.MULTICLASS_CLASSIFICATION, mkRat 9 10)
      else some (.EXPLORATORY, mkRat 4 10)

/-! ## `AutoPipelineSelector._determine_strategy` -/

/-- Preprocessing tiers (`PreprocessingStrategy` enum in
`pipeline_selector.py`). -/
inductive PreprocessingStrategy where
  | MINIMAL
  | STANDARD
  | ROBUST
  | ADVANCED
deriving DecidableEq, Repr

/-- The dataset-level inputs `_determine_strategy` reads from the
`DatasetProfile`. -/
structure DatasetStats where
  overall_quality_score : ℚ
  total_rows : ℕ
  total_columns : ℕ
deriving DecidableEq, Repr

/-- Number of columns `_determine_strategy` counts as high-missing: note the
source threshold is `missing_percentage > 20`. -/
def high_missing_cols (profiles : List ColumnProfile) : ℕ :=
  (profiles.filter (fun p => p.missing_percentage > 20)).length

/-- Total number of stored column quality issues. -/
def total_quality_issues (profiles : List ColumnProfile) : ℕ :=
  (profiles.map (fun p => p.quality_issues.length)).sum

/-- `AutoPipelineSelector._determine_strategy`, in source order. -/
def determine_strategy (profiles : List ColumnProfile) (ds : DatasetStats) :
    PreprocessingStrategy :=
  let q := ds.overall_quality_score
  let is_wide := ds.total_columns > 50
  if q ≥ 90 ∧ total_quality_issues profiles = 0 then .MINIMAL
  else if q ≥ 70 ∧ high_missing_cols profiles = 0 ∧ ¬ is_wide then .STANDARD
  else if q ≥ 50 ∨ high_missing_cols profiles > 0 ∨ is_wide then .ROBUST
  else .ADVANCED

/-- Number of columns that are high-missing by the claim's definition
(the spec's `HIGH_MISSING` flag: missing % strictly above 50). -/
def claimed_high_missing_cols (profiles : List ColumnProfile) : ℕ :=
  (profiles.filter (fun p => p.missing_percentage > 50)).length

/-- The tier rule exactly as the claim words it, with high-missing meaning
missing % > 50. -/
def claimed_strategy (profiles : List ColumnProfile) (ds : DatasetStats) :
    PreprocessingStrategy :=
  let q := ds.overall_quality_score
  let is_wide := ds.total_columns > 50
  if q ≥ 90 ∧ total_quality_issues profiles = 0 then .MINIMAL
  else if q ≥ 70 ∧ claimed_high_missing_cols profiles = 0 ∧ ¬ is_wide then
    .STANDARD
  else if q ≥ 50 ∨ claimed_high_missing_cols profiles > 0 ∨ is_wide then
    .ROBUST
  else .ADVANCED

/-! ## `AutoMLEngine`: training loop, model selection, comparison table -/

/-- The candidate algorithm identifiers (`ModelType` enum in
`automl_engine.py`). -/
inductive ModelType where
  | LOGISTIC_REGRESSION
  | RANDOM_FOREST_CLASSIFIER
  | GRADIENT_BOOSTING_CLASSIFIER
  | SVM_CLASSIFIER
  | NAIVE_BAYES
  | KNN_CLASSIFIER
  | LINEAR_REGRESSION
  | RANDOM_FOREST_REGRESSOR
  | GRADIENT_BOOSTING_REGRESSOR
  | SVM_REGRESSOR
  | KNN_REGRESSOR
deriving DecidableEq, Repr

/-- The fields of a `ModelResult` that selection, comparison and the training
loop read. -/
structure ModelResult where
  model_type : ModelType
  mean_cv_score : ℚ
  std_cv_score : ℚ
  test_score : ℚ
  training_time : ℚ
deriving DecidableEq, Repr

/-- The regression sort key of `_select_best_model`:
`x.mean_cv_score if x.mean_cv_score > 0 else -abs(x.mean_cv_score)`. -/
def regression_sort_key (q : ℚ) : ℚ := if q > 0 then q else -|q|

/-- `AutoMLEngine._select_best_model`: Python `max` by mean CV score, with the
special key expression on the regression branch; `none` models the
`ValueError` of `max` on an empty sequence. -/
def select_best_model (model_results : List ModelResult)
    (problem_type : ProblemType) : Option ModelResult :=
  if problem_type = .REGRESSION then
    match model_results with
    | [] => none
    | h :: t =>
      some (pickFirstMax (fun x => regression_sort_key x.mean_cv_score) h t)
  else
    match model_results with
    | [] => none
    | h :: t => some (pickFirstMax (fun x => x.mean_cv_score) h t)

/-- Python `round(x, 4)` (round half to even at four decimal places). -/
def pyRound4 (q : ℚ) : ℚ :=
  let s := q * 10000
  let f : ℤ := ⌊s⌋
  let r : ℤ :=
    if s - f < mkRat 1 2 then f
    else if s - f > mkRat 1 2 then f + 1
    else if f % 2 = 0 then f else f + 1
  (r : ℚ) / 10000

/-- One row of the model-comparison table built by
`_create_model_comparison`. -/
structure ComparisonRow where
  model : ModelType
  cv_score_mean : ℚ
  cv_score_std : ℚ
  test_score : ℚ
  training_time : ℚ
deriving DecidableEq, Repr

/-- The row built for one `ModelResult` (scores rounded to 4 decimals, the
training time to 2). -/
def comparisonRow (m : ModelResult) : ComparisonRow :=
  { model := m.model_type
    cv_score_mean := pyRound4 m.mean_cv_score
    cv_score_std := pyRound4 m.std_cv_score
    test_score := pyRound4 m.test_score
    training_time := m.training_time }

/-- `AutoMLEngine._create_model_comparison`:
`df.sort_values('CV_Score_Mean', ascending=False)`, a sort of the rows by
descending rounded mean CV score. -/
def create_model_comparison (model_results : List ModelResult) :
    List ComparisonRow :=
  (model_results.map comparisonRow).mergeSort
    (fun a b => decide (b.cv_score_mean ≤ a.cv_score_mean))

/-- The training loop of `train_automl`, abstracted over the per-candidate
outcome: `some r` when `_train_single_model` returns a result, `none` when its
fit or predict step raises (the `except` branch that logs and continues).
Failed candidates are skipped; when nothing trained the loop ends in
`raise Exception("No models could be trained successfully")` — the error the
specification names `FatalTrainingError`; otherwise the best model is selected
and all successful results are returned as `all_models`. -/
def train_automl_models (problem_type : ProblemType)
    (outcomes : List (Option ModelResult)) :
    Except String (ModelResult × List ModelResult) :=
  match outcomes.filterMap id with
  | [] => .error "No models could be trained successfully"
  | m :: ms =>
    .ok ((select_best_model (m :: ms) problem_type).getD m, m :: ms)

/-! ## `AutoMLEngine` cross-validation scheme and scoring -/

/-- Scoring strings passed to `cross_val_score`. -/
inductive ScoringMetric where
  | roc_auc
  | accuracy
  | neg_mean_squared_error
deriving DecidableEq, Repr

/-- `AutoMLEngine._get_scoring_metric`. -/
def get_scoring_metric : ProblemType → ScoringMetric
  | .BINARY_CLASSIFICATION => .roc_auc
  | .MULTICLASS_CLASSIFICATION => .accuracy
  | .REGRESSION => .neg_mean_squared_error
  | _ => .accuracy

/-- The fold scheme chosen in `_train_single_model`. -/
inductive CVScheme where
  | stratified_kfold (n_splits : ℕ)
  | kfold (n_splits : ℕ)
deriving DecidableEq, Repr

/-- The `cv_strategy` expression of `_train_single_model`:
`StratifiedKFold(n_splits=5, ...)` for the two classification problem types,
`KFold(n_splits=5, ...)` otherwise. -/
def cv_strategy (problem_type : ProblemType) : CVScheme :=
  if problem_type = .BINARY_CLASSIFICATION ∨
      problem_type = .MULTICLASS_CLASSIFICATION then
    .stratified_kfold 5
  else .kfold 5

/-- The value of the `neg_mean_squared_error` scorer on a validation set with
mean squared error `mse`. -/
def neg_mse_score (mse : ℚ) : ℚ := -mse

/-- R² on a validation set of variance `v` and mean squared error `mse`:
`R² = 1 − mse / v`. -/
def r2_of_mse (v mse : ℚ) : ℚ := 1 - mse / v

/-! ## Dataset-size validation (`train_simple.py` and `data_ingestion_v2.py`)

Only the nullity pattern of the table matters to these checks, so a dataset is
a rectangular `List (List Bool)` of rows (`true` = missing cell) together with
its column count. -/

/-- The validation prefix of `train_model` in `routes/train_simple.py`: drop
all-null rows (`df.dropna(how='all')`; the subsequent all-null *column* drop
does not change the row count), then reject datasets with fewer than 20 rows,
then datasets with fewer than 2 surviving columns. -/
def train_model_validation (rows : List (List Bool)) (ncols : ℕ) :
    Except String Unit :=
  let kept := rows.filter (fun row => !(row.all id))
  let keptCols :=
    (List.range ncols).filter
      (fun j => kept.any (fun row => !(row.getD j true)))
  if kept.length < 20 then
    .error "Dataset too small (minimum 20 rows required)"
  else if keptCols.length < 2 then
    .error "Need at least 2 columns"
  else .ok ()

/-- `_validate_ml_readiness` in `ml_engine/data_ingestion_v2.py`.  The missing
ratio `df.isnull().sum().sum() / (len(df) * len(df.columns)) > 0.5` is
embedded as `2 * missing > rows * cols`; `.error ()` models the
`ZeroDivisionError` raised when the table has no cells. -/
def validate_ml_readiness (rows : List (List Bool)) (ncols : ℕ) :
    Except Unit (List String) :=
  let errs1 :=
    if rows.length < 10 then ["Dataset too small (minimum 10 rows required)"]
    else []
  let errs2 :=
    if ncols < 2 then ["Dataset needs at least 2 columns (features + target)"]
    else []
  if rows.length * ncols = 0 then .error ()
  else
    let missing := (rows.map (fun row => row.countP id)).sum
    let errs3 :=
      if 2 * missing > rows.length * ncols then
        ["Too many missing values (>50%)"]
      else []
    .ok (errs1 ++ errs2 ++ errs3)

/-! ## Concrete example inputs used by witnesses and counterexamples -/

/-- An object-dtype column holding the strings `True`, `False`, `true`. -/
def boolish3Col : List (Option PyVal) :=
  [some (.str "True"), some (.str "False"), some (.str "true")]

/-- A single-cell column whose only value is missing. -/
def allMissingCol : List (Option PyVal) := [none]

/-- A numeric two-class profile for a column named by the empty string. -/
def emptyNameProfile : ColumnProfile :=
  { data_type := .NUMERICAL, missing_count := 0, missing_percentage := 0,
    unique_count := 2, unique_percentage := 2 }

/-- A role assignment whose target slot holds the empty-string column name. -/
def emptyNameRoles : Roles := { target := some "" }

/-- A role assignment with the non-empty target name `churn`. -/
def churnRoles : Roles := { target := some "churn" }

/-- Profile table for the `churn` example. -/
def churnCols : List (String × ColumnProfile) :=
  [("churn", { data_type := .CATEGORICAL, missing_count := 0,
               missing_percentage := 0, unique_count := 2,
               unique_percentage := 1 })]

/-- A clean numeric profile with 30 % missing values and no quality flags. -/
def missing30Profile : ColumnProfile :=
  { data_type := .NUMERICAL, missing_count := 30, missing_percentage := 30,
    unique_count := 50, unique_percentage := 50 }

/-- Dataset-level statistics with overall quality 70 and a single column. -/
def quality70Stats : DatasetStats :=
  { overall_quality_score := 70, total_rows := 100, total_columns := 1 }

/-- Columns of the role-partition example: an identifier, a feature and a
two-class column that target inference should adopt. -/
def exampleCols : List (String × ColumnProfile) :=
  [("customer_id", { data_type := .NUMERICAL, missing_count := 0,
                     missing_percentage := 0, unique_count := 200,
                     unique_percentage := 100 }),
   ("age", { data_type := .NUMERICAL, missing_count := 0,
             missing_percentage := 0, unique_count := 60,
             unique_percentage := 30 }),
   ("churn", { data_type := .CATEGORICAL, missing_count := 0,
               missing_percentage := 0, unique_count := 2,
               unique_percentage := 1 })]

/-- A successfully trained logistic-regression candidate with mean CV 2. -/
def exLogReg : ModelResult :=
  { model_type := .LOGISTIC_REGRESSION, mean_cv_score := 2,
    std_cv_score := 0, test_score := 1, training_time := 1 }

/-- A successfully trained random-forest candidate, also with mean CV 2. -/
def exForest : ModelResult :=
  { model_type := .RANDOM_FOREST_CLASSIFIER, mean_cv_score := 2,
    std_cv_score := 0, test_score := 1, training_time := 1 }

/-- A weaker gradient-boosting candidate with mean CV 1. -/
def exBoost : ModelResult :=
  { model_type := .GRADIENT_BOOSTING_CLASSIFIER, mean_cv_score := 1,
    std_cv_score := 0, test_score := 1, training_time := 1 }

/-- Candidate outcomes: the first candidate raised, two trained. -/
def exOutcomes : List (Option ModelResult) := [none, some exBoost, some exForest]

/-- A 5-row, 2-column dataset with no missing cells. -/
def fiveRowTable : List (List Bool) := List.replicate 5 [false, false]

/-! ## Helper lemmas about Python `max` (first maximal element wins) -/

lemma pickFirstMax_cons {α : Type} (key : α → ℚ) (h x : α) (t : List α) :
    pickFirstMax key h (x :: t) =
      pickFirstMax key (if key h < key x then x else h) t := rfl

/-- Full characterisation of `pickFirstMax`: either the seed survives and
bounds every key, or the result sits inside the list, strictly above the seed
and everything before it, and at least as high as everything after it. -/
lemma pickFirstMax_spec {α : Type} (key : α → ℚ) :
    ∀ (t : List α) (h r : α), pickFirstMax key h t = r →
      (r = h ∧ ∀ y ∈ t, key y ≤ key h) ∨
      (∃ t₁ t₂, t = t₁ ++ r :: t₂ ∧ key h < key r ∧
        (∀ y ∈ t₁, key y < key r) ∧ (∀ y ∈ t₂, key y ≤ key r)) := by
  intro t
  induction t with
  | nil => intro h r hr; exact Or.inl ⟨hr.symm, by simp⟩
  | cons x xs ih =>
    intro h r hr
    rw [pickFirstMax_cons] at hr
    by_cases hx : key h < key x
    · rw [if_pos hx] at hr
      rcases ih x r hr with ⟨he, hle⟩ | ⟨t₁, t₂, heq, hlt, hbef, haft⟩
      · subst he
        exact Or.inr ⟨[], xs, rfl, hx, by simp, hle⟩
      · refine Or.inr ⟨x :: t₁, t₂, ?_, lt_trans hx hlt, ?_, haft⟩
        · rw [heq]; rfl
        · intro y hy
          rcases List.mem_cons.mp hy with hy | hy
          · subst hy; exact hlt
          · exact hbef y hy
    · rw [if_neg hx] at hr
      have hx' : key x ≤ key h := le_of_not_lt hx
      rcases ih h r hr with ⟨he, hle⟩ | ⟨t₁, t₂, heq, hlt, hbef, haft⟩
      · refine Or.inl ⟨he, ?_⟩
        intro y hy
        rcases List.mem_cons.mp hy with hy | hy
        · subst hy; exact hx'
        · exact hle y hy
      · refine Or.inr ⟨x :: t₁, t₂, ?_, hlt, ?_, haft⟩
        · rw [heq]; rfl
        · intro y hy
          rcases List.mem_cons.mp hy with hy | hy
          · subst hy; exact lt_of_le_of_lt hx' hlt
          · exact hbef y hy

/-- `pickFirstMax` returns the first element of `h :: t` whose key is maximal:
everything strictly before it has a strictly smaller key, and nothing in the
whole list exceeds it. -/
lemma pickFirstMax_first_max {α : Type} (key : α → ℚ) (h r : α) (t : List α)
    (hr : pickFirstMax key h t = r) :
    ∃ l₁ l₂, h :: t = l₁ ++ r :: l₂ ∧
      (∀ y ∈ l₁, key y < key r) ∧ (∀ y ∈ h :: t, key y ≤ key r) := by
  rcases pickFirstMax_spec key t h r hr with ⟨he, hle⟩ | ⟨t₁, t₂, heq, hlt, hbef, haft⟩
  · subst he
    refine ⟨[], t, rfl, by simp, ?_⟩
    intro y hy
    rcases List.mem_cons.mp hy with hy | hy
    · subst hy; exact le_rfl
    · exact hle y hy
  · refine ⟨h :: t₁, t₂, by rw [heq]; rfl, ?_, ?_⟩
    · intro y hy
      rcases List.mem_cons.mp hy with hy | hy
      · subst hy; exact hlt
      · exact hbef y hy
    · intro y hy
      rcases List.mem_cons.mp hy with hy | hy
      · subst hy; exact le_of_lt hlt
      · rw [heq] at hy
        rcases List.mem_append.mp hy with hy | hy
        · exact le_of_lt (hbef y hy)
        · rcases List.mem_cons.mp hy with hy | hy
          · subst hy; exact le_rfl
          · exact haft y hy

/-- `pickFirstMax` always returns an element of `h :: t`. -/
lemma pickFirstMax_mem {α : Type} (key : α → ℚ) (h : α) (t : List α) :
    pickFirstMax key h t ∈ h :: t := by
  rcases pickFirstMax_first_max key h (pickFirstMax key h t) t rfl with
    ⟨l₁, l₂, heq, -, -⟩
  rw [heq]
  exact List.mem_append.mpr (Or.inr (List.mem_cons_self _ _))

/-- The regression sort key of `_select_best_model` is the identity on every
rational score: for positive scores by its first branch, otherwise because
`-|q| = q` for non-positive `q`. -/
lemma regression_sort_key_eq_id (q : ℚ) : regression_sort_key q = q := by
  unfold regression_sort_key
  by_cases hq : q > 0
  · rw [if_pos hq]
  · rw [if_neg hq, abs_of_nonpos (le_of_not_lt hq), neg_neg]

/-- Both branches of `_select_best_model` compute the same function. -/
lemma select_best_model_branch_free (results : List ModelResult)
    (pt : ProblemType) :
    select_best_model results pt =
      match results with
      | [] => none
      | h :: t => some (pickFirstMax (fun x => x.mean_cv_score) h t) := by
  unfold select_best_model
  have hkey : (fun x : ModelResult => regression_sort_key x.mean_cv_score) =
      fun x : ModelResult => x.mean_cv_score := by
    funext x; exact regression_sort_key_eq_id _
  by_cases hp : pt = .REGRESSION
  · rw [if_pos hp, hkey]
  · rw [if_neg hp]

/-- Unfolding equation of the training loop. -/
lemma train_automl_models_eq (pt : ProblemType)
    (outcomes : List (Option ModelResult)) :
    train_automl_models pt outcomes =
      match outcomes.filterMap id with
      | [] => .error "No models could be trained successfully"
      | m :: ms => .ok ((select_best_model (m :: ms) pt).getD m, m :: ms) :=
  rfl

/-! ## Claim theorems -/

/-- C10: the regression sort key
`x.mean_cv_score if x.mean_cv_score > 0 else -abs(x.mean_cv_score)` equals
`x.mean_cv_score` on every rational value, so the regression branch of
`_select_best_model` returns the same model as the classification branch
(plain first-maximum of the mean CV score) on every candidate list. -/
theorem regression_branch_equivalent :
    (∀ q : ℚ, regression_sort_key q = q)
  ∧ (∀ (results : List ModelResult) (pt : ProblemType),
      select_best_model results pt =
        select_best_model results .BINARY_CLASSIFICATION) := by
  refine ⟨regression_sort_key_eq_id, ?_⟩
  intro results pt
  rw [select_best_model_branch_free, select_best_model_branch_free]

/-- C7: `_select_best_model` returns a candidate whose mean CV score is
maximal and which is the earliest such candidate in registry order (every
candidate strictly before it scores strictly lower), and
`_create_model_comparison` returns a permutation of the rows sorted descending
by their mean CV score column. -/
theorem best_model_selection_and_ranking :
    (∀ (pt : ProblemType) (results : List ModelResult) (best : ModelResult),
      select_best_model results pt = some best →
      ∃ l₁ l₂, results = l₁ ++ best :: l₂ ∧
        (∀ m ∈ l₁, m.mean_cv_score < best.mean_cv_score) ∧
        ∀ m ∈ results, m.mean_cv_score ≤ best.mean_cv_score)
  ∧ (∀ results : List ModelResult,
      (create_model_comparison results).Perm (results.map comparisonRow) ∧
      (create_model_comparison results).Pairwise
        (fun a b => b.cv_score_mean ≤ a.cv_score_mean)) := by
  constructor
  · intro pt results best hsel
    rw [select_best_model_branch_free] at hsel
    cases results with
    | nil => exact absurd hsel (by simp)
    | cons h t =>
      have hbest : pickFirstMax (fun x : ModelResult => x.mean_cv_score) h t
          = best := by
        simpa using hsel
      exact pickFirstMax_first_max _ h best t hbest
  · intro results
    constructor
    · exact List.mergeSort_perm _ _
    · have htrans : ∀ a b c : ComparisonRow,
          decide (b.cv_score_mean ≤ a.cv_score_mean) = true →
          decide (c.cv_score_mean ≤ b.cv_score_mean) = true →
          decide (c.cv_score_mean ≤ a.cv_score_mean) = true := by
        intro a b c hab hbc
        simp only [decide_eq_true_eq] at hab hbc ⊢
        exact le_trans hbc hab
      have htotal : ∀ a b : ComparisonRow,
          (decide (b.cv_score_mean ≤ a.cv_score_mean) ||
            decide (a.cv_score_mean ≤ b.cv_score_mean)) = true := by
        intro a b
        simp only [Bool.or_eq_true, decide_eq_true_eq]
        exact le_total _ _
      have hs := List.sorted_mergeSort htrans htotal (results.map comparisonRow)
      exact hs.imp (fun hab => by simpa using hab)

/-- C7 witness: on two candidates tying at mean CV score 2, the first of them
is selected. -/
theorem best_model_selection_and_ranking_witness :
    select_best_model [exLogReg, exForest] .BINARY_CLASSIFICATION
      = some exLogReg ∧
    (∃ l₁ l₂, [exLogReg, exForest] = l₁ ++ exLogReg :: l₂ ∧
      (∀ m ∈ l₁, m.mean_cv_score < exLogReg.mean_cv_score) ∧
      ∀ m ∈ [exLogReg, exForest],
        m.mean_cv_score ≤ exLogReg.mean_cv_score) :=
  ⟨rfl, best_model_selection_and_ranking.1 .BINARY_CLASSIFICATION
    [exLogReg, exForest] exLogReg rfl⟩

/-- C1: the training loop drops exactly the candidates whose training raised
(the successful results survive, in order, as `all_models`), and it ends in
the fatal "no models could be trained" error precisely when every candidate
failed; otherwise it returns a result whose best model is one of the
survivors. -/
theorem candidate_failure_policy (pt : ProblemType) :
    (∀ outcomes : List (Option ModelResult),
      (∃ e, train_automl_models pt outcomes = .error e) ↔
        ∀ o ∈ outcomes, o = none)
  ∧ (∀ (outcomes : List (Option ModelResult)) (best : ModelResult)
      (all : List ModelResult),
      train_automl_models pt outcomes = .ok (best, all) →
        all = outcomes.filterMap id ∧ best ∈ all) := by
  constructor
  · intro outcomes
    rw [train_automl_models_eq]
    cases hfm : outcomes.filterMap id with
    | nil =>
      simp only []
      constructor
      · intro _ o ho
        have := (List.filterMap_eq_nil_iff.mp hfm) o ho
        simpa using this
      · intro _
        exact ⟨_, rfl⟩
    | cons m ms =>
      simp only []
      constructor
      · rintro ⟨e, he⟩
        exact absurd he (by simp)
      · intro hall
        have : outcomes.filterMap id = [] :=
          List.filterMap_eq_nil_iff.mpr (fun o ho => by rw [hall o ho]; rfl)
        rw [hfm] at this
        exact absurd this (by simp)
  · intro outcomes best all hok
    rw [train_automl_models_eq] at hok
    cases hfm : outcomes.filterMap id with
    | nil =>
      rw [hfm] at hok
      exact absurd hok (by simp)
    | cons m ms =>
      rw [hfm] at hok
      simp only [Except.ok.injEq, Prod.mk.injEq] at hok
      obtain ⟨hbest, hall⟩ := hok
      refine ⟨hall.symm, ?_⟩
      rw [← hall, ← hbest, select_best_model_branch_free]
      simpa using pickFirstMax_mem (fun x : ModelResult => x.mean_cv_score) m ms

/-- C1 witness: with one raising candidate and two survivors, the run
succeeds, `all_models` is exactly the two survivors in order, and the best
model is one of them. -/
theorem candidate_failure_policy_witness :
    train_automl_models .BINARY_CLASSIFICATION exOutcomes
      = .ok (exForest, [exBoost, exForest]) ∧
    [exBoost, exForest] = exOutcomes.filterMap id ∧
    exForest ∈ [exBoost, exForest] :=
  ⟨rfl, (candidate_failure_policy .BINARY_CLASSIFICATION).2 exOutcomes
    exForest [exBoost, exForest] rfl⟩

/-- C8: cross-validation uses stratified 5-fold splitting for the two
classification problem types and plain 5-fold for regression; the scoring
metric is ROC-AUC for binary classification, accuracy for multiclass
classification, and negative mean squared error for regression, whose ranking
of candidates on a fixed validation set (variance `v > 0`) agrees with R². -/
theorem cv_scheme_and_scoring :
    cv_strategy .BINARY_CLASSIFICATION = .stratified_kfold 5
  ∧ cv_strategy .MULTICLASS_CLASSIFICATION = .stratified_kfold 5
  ∧ cv_strategy .REGRESSION = .kfold 5
  ∧ get_scoring_metric .BINARY_CLASSIFICATION = .roc_auc
  ∧ get_scoring_metric .MULTICLASS_CLASSIFICATION = .accuracy
  ∧ get_scoring_metric .REGRESSION = .neg_mean_squared_error
  ∧ (∀ v m₁ m₂ : ℚ, 0 < v →
      (neg_mse_score m₁ ≤ neg_mse_score m₂ ↔
        r2_of_mse v m₁ ≤ r2_of_mse v m₂)) := by
  refine ⟨rfl, rfl, rfl, rfl, rfl, rfl, ?_⟩
  intro v m₁ m₂ hv
  unfold neg_mse_score r2_of_mse
  rw [neg_le_neg_iff, sub_le_sub_iff_left]
  exact (div_le_div_iff_of_pos_right hv).symm

/-- C8 witness: the ranking equivalence at variance 1 and errors 2 and 1. -/
theorem cv_scheme_and_scoring_witness :
    (0 : ℚ) < 1 ∧
    (neg_mse_score 2 ≤ neg_mse_score 1 ↔ r2_of_mse 1 2 ≤ r2_of_mse 1 1) :=
  ⟨by decide, cv_scheme_and_scoring.2.2.2.2.2.2 1 2 1 (by decide)⟩

/-- C9: a dataset with exactly 5 rows is rejected before any training: the
training route answers with the "Dataset too small" validation error (dropping
all-null rows cannot raise the row count above 5, which is below the minimum
of 20), and the ingestion-level ML-readiness check reports its own
dataset-too-small error; in both cases no training result is produced. -/
theorem small_dataset_rejected :
    (∀ (rows : List (List Bool)) (ncols : ℕ), rows.length = 5 →
      train_model_validation rows ncols =
        .error "Dataset too small (minimum 20 rows required)")
  ∧ (∀ (rows : List (List Bool)) (ncols : ℕ) (errs : List String),
      rows.length = 5 → validate_ml_readiness rows ncols = .ok errs →
      "Dataset too small (minimum 10 rows required)" ∈ errs) := by
  constructor
  · intro rows ncols h5
    unfold train_model_validation
    have hk : (rows.filter (fun row => !(row.all id))).length < 20 :=
      lt_of_le_of_lt (List.length_filter_le _ _) (by rw [h5]; norm_num)
    simp only [hk, if_pos]
  · intro rows ncols errs h5 hok
    unfold validate_ml_readiness at hok
    by_cases hz : rows.length * ncols = 0
    · rw [if_pos hz] at hok
      exact absurd hok (by simp)
    · rw [if_neg hz] at hok
      simp only [Except.ok.injEq] at hok
      rw [← hok]
      have h10 : rows.length < 10 := by rw [h5]; norm_num
      rw [if_pos h10]
      exact List.mem_append.mpr (Or.inl (List.mem_append.mpr
        (Or.inl (List.mem_singleton.mpr rfl))))

/-- C9 witness: a concrete 5×2 table with no missing cells. -/
theorem small_dataset_rejected_witness :
    fiveRowTable.length = 5 ∧
    train_model_validation fiveRowTable 2 =
      .error "Dataset too small (minimum 20 rows required)" ∧
    validate_ml_readiness fiveRowTable 2 =
      .ok ["Dataset too small (minimum 10 rows required)"] ∧
    "Dataset too small (minimum 10 rows required)" ∈
      ["Dataset too small (minimum 10 rows required)"] :=
  ⟨rfl, small_dataset_rejected.1 fiveRowTable 2 rfl, rfl,
    small_dataset_rejected.2 fiveRowTable 2 _ rfl rfl⟩

/-- C2: for every profiled column (with its necessarily non-negative missing
percentage) the quality score of a non-constant column equals
`max(0, 100 − min(missing%, 50) − 10 × #issues)`, a constant column
(`unique_count ≤ 1`) scores exactly 0 whatever the other terms, and the score
always lies in `[0, 100]`. -/
theorem quality_score_spec (p : ColumnProfile) (rows : ℕ)
    (hm : 0 ≤ p.missing_percentage) :
    (1 < p.unique_count →
      assess_column_quality p rows =
        max 0 (100 - min p.missing_percentage 50 -
          10 * ((column_quality_issues p rows).length : ℚ)))
  ∧ (p.unique_count ≤ 1 → assess_column_quality p rows = 0)
  ∧ 0 ≤ assess_column_quality p rows
  ∧ assess_column_quality p rows ≤ 100 := by
  simp only [assess_column_quality]
  by_cases hu : p.unique_count ≤ 1
  · rw [if_pos hu]
    exact ⟨fun h1 => absurd hu (by omega), fun _ => by simp,
      by simp, by simp⟩
  · rw [if_neg hu]
    have hmin : (0 : ℚ) ≤ min p.missing_percentage 50 :=
      le_min hm (by norm_num)
    have hlen : (0 : ℚ) ≤ 10 * ((column_quality_issues p rows).length : ℚ) :=
      by positivity
    refine ⟨fun _ => rfl, fun h0 => absurd h0 hu, le_max_left _ _, ?_⟩
    refine max_le (by norm_num) ?_
    linarith

/-- C2 witness: a clean numeric column with 30 % missing values. -/
theorem quality_score_spec_witness :
    (0 : ℚ) ≤ missing30Profile.missing_percentage ∧
    ((1 < missing30Profile.unique_count →
      assess_column_quality missing30Profile 100 =
        max 0 (100 - min missing30Profile.missing_percentage 50 -
          10 * ((column_quality_issues missing30Profile 100).length : ℚ)))
    ∧ (missing30Profile.unique_count ≤ 1 →
        assess_column_quality missing30Profile 100 = 0)
    ∧ 0 ≤ assess_column_quality missing30Profile 100
    ∧ assess_column_quality missing30Profile 100 ≤ 100) :=
  ⟨by decide, quality_score_spec missing30Profile 100 (by decide)⟩

/-- C6 counterexample: a dataset of overall quality 70 whose single column has
30 % missing values (no stored quality flags).  The claim, reading
high-missing with the spec's threshold of 50 %, predicts the `standard` tier;
`_determine_strategy` counts the column as high-missing at its actual 20 %
threshold and returns `robust`. -/
theorem strategy_tier_counterexample :
    determine_strategy [missing30Profile] quality70Stats = .ROBUST ∧
    claimed_strategy [missing30Profile] quality70Stats = .STANDARD ∧
    determine_strategy [missing30Profile] quality70Stats ≠
      claimed_strategy [missing30Profile] quality70Stats := by
  refine ⟨?_, ?_, ?_⟩ <;> decide

/-- C6 (amended): the tier chain holds with high-missing meaning
missing % > 20, the threshold `_determine_strategy` actually uses: minimal iff
quality ≥ 90 with zero stored issues; else standard iff quality ≥ 70, no
column above 20 % missing, and at most 50 columns; else robust iff
quality ≥ 50, or some column above 20 % missing, or more than 50 columns;
else advanced. -/
theorem strategy_tiers (profiles : List ColumnProfile) (ds : DatasetStats) :
    (determine_strategy profiles ds = .MINIMAL ↔
      ds.overall_quality_score ≥ 90 ∧ total_quality_issues profiles = 0)
  ∧ (determine_strategy profiles ds = .STANDARD ↔
      ¬(ds.overall_quality_score ≥ 90 ∧ total_quality_issues profiles = 0) ∧
      (ds.overall_quality_score ≥ 70 ∧ high_missing_cols profiles = 0 ∧
        ds.total_columns ≤ 50))
  ∧ (determine_strategy profiles ds = .ROBUST ↔
      ¬(ds.overall_quality_score ≥ 90 ∧ total_quality_issues profiles = 0) ∧
      ¬(ds.overall_quality_score ≥ 70 ∧ high_missing_cols profiles = 0 ∧
        ds.total_columns ≤ 50) ∧
      (ds.overall_quality_score ≥ 50 ∨ high_missing_cols profiles > 0 ∨
        ds.total_columns > 50))
  ∧ (determine_strategy profiles ds = .ADVANCED ↔
      ¬(ds.overall_quality_score ≥ 90 ∧ total_quality_issues profiles = 0) ∧
      ¬(ds.overall_quality_score ≥ 70 ∧ high_missing_cols profiles = 0 ∧
        ds.total_columns ≤ 50) ∧
      ¬(ds.overall_quality_score ≥ 50 ∨ high_missing_cols profiles > 0 ∨
        ds.total_columns > 50)) := by
  simp only [determine_strategy]
  split_ifs with h1 h2 h3 <;>
    refine ⟨?_, ?_, ?_, ?_⟩ <;>
    constructor <;>
    intro hx <;>
    simp_all [not_lt] <;>
    linarith

/-- C4 counterexample: a reachable role assignment whose target is the column
named by the empty string, with a numeric two-class profile for that column.
The claim's fixed-order rule predicts binary classification at confidence 0.9,
but `_determine_problem_type` tests `if not target_col`, which is true for the
empty string, and answers exploratory at 0.6. -/
theorem problem_type_counterexample :
    determine_problem_type emptyNameRoles [("", emptyNameProfile)]
      = some (.EXPLORATORY, mkRat 6 10) ∧
    claimed_problem_type emptyNameRoles [("", emptyNameProfile)]
      = some (.BINARY_CLASSIFICATION, mkRat 9 10) ∧
    determine_problem_type emptyNameRoles [("", emptyNameProfile)] ≠
      claimed_problem_type emptyNameRoles [("", emptyNameProfile)] := by
  refine ⟨?_, ?_, ?_⟩ <;> decide

/-- C4 (amended): `_determine_problem_type` computes the claim's fixed-order
case analysis, except that a target whose column name is the empty string is
treated like an absent target (Python truthiness of `if not target_col`):
whenever the target is absent or empty-named the result is exploratory at
confidence 0.6, and for every other role assignment the code agrees with the
claimed rule exactly. -/
theorem problem_type_amended (roles : Roles)
    (cols : List (String × ColumnProfile)) :
    ((roles.target = none ∨ roles.target = some "") →
      determine_problem_type roles cols = some (.EXPLORATORY, mkRat 6 10))
  ∧ (roles.target ≠ some "" →
      determine_problem_type roles cols = claimed_problem_type roles cols) := by
  constructor
  · rintro (h | h) <;> simp [determine_problem_type, h]
  · intro hne
    cases ht : roles.target with
    | none => simp [determine_problem_type, claimed_problem_type, ht]
    | some t =>
      have htne : t ≠ "" := by
        rintro rfl
        exact hne ht
      simp [determine_problem_type, claimed_problem_type, ht, htne]

/-- C4 witness: the amended rule applied to a non-empty target name and to an
absent target. -/
theorem problem_type_amended_witness :
    churnRoles.target ≠ some "" ∧
    determine_problem_type churnRoles churnCols =
      claimed_problem_type churnRoles churnCols ∧
    (emptyNameRoles.target = none ∨ emptyNameRoles.target = some "") ∧
    determine_problem_type emptyNameRoles [("", emptyNameProfile)] =
      some (.EXPLORATORY, mkRat 6 10) :=
  ⟨by decide, (problem_type_amended churnRoles churnCols).2 (by decide),
   by decide,
   (problem_type_amended emptyNameRoles [("", emptyNameProfile)]).1
     (by decide)⟩

/-- C5 counterexample: the object-dtype column `['True', 'False', 'true']` has
three distinct non-null values, yet `_detect_data_type` types it boolean — the
code's subset test against `{0,1,True,False,'True','False','true','false'}`
imposes no bound of 2 on the number of distinct values. -/
theorem semantic_type_counterexample :
    detect_data_type .object boolish3Col = .BOOLEAN ∧
    (pyDedup (boolish3Col.filterMap id)).length = 3 := by
  exact ⟨by decide, by decide⟩

/-- C5 (amended): detection follows the source precedence, where a column is
typed boolean exactly when it has a non-null value and either its dtype is
bool or all of its non-null values lie in the boolean-like set
`{0, 1, True, False, 'True', 'False', 'true', 'false'}` (up to six distinct
values, not two); a column with no non-null values is typed unknown; and a
column is typed unknown only when all its values are missing or its dtype is
outside the recognised bool/numeric/datetime/object dtypes. -/
theorem semantic_type_amended (dtype : Dtype) (col : List (Option PyVal)) :
    (detect_data_type dtype col = .BOOLEAN ↔
      col.filterMap id ≠ [] ∧
        (dtype = .boolDt ∨ (col.filterMap id).all isBoolLike = true))
  ∧ (col.filterMap id = [] → detect_data_type dtype col = .UNKNOWN)
  ∧ (detect_data_type dtype col = .UNKNOWN →
      col.filterMap id = [] ∨
        (dtype ≠ .boolDt ∧ isNumericDtype dtype = false ∧
          dtype ≠ .datetime64 ∧ dtype ≠ .object)) := by
  simp only [detect_data_type]
  split_ifs with h1 h2 h3 h4 h5 h6 h7 h8 <;>
    simp_all [List.isEmpty_iff, Bool.or_eq_true, beq_iff_eq] <;>
    first
    | assumption
    | (cases dtype <;> simp_all [isNumericDtype] <;> exact h1)

/-- C5 witness: a column whose single value is missing is typed unknown, and
the unknown characterisation holds for it. -/
theorem semantic_type_amended_witness :
    allMissingCol.filterMap id = [] ∧
    detect_data_type .int64 allMissingCol = .UNKNOWN ∧
    (allMissingCol.filterMap id = [] ∨
      (Dtype.int64 ≠ .boolDt ∧ isNumericDtype .int64 = false ∧
        Dtype.int64 ≠ .datetime64 ∧ Dtype.int64 ≠ .object)) :=
  ⟨rfl, (semantic_type_amended .int64 allMissingCol).2.1 rfl,
   (semantic_type_amended .int64 allMissingCol).2.2 (by decide)⟩

/-- Assigning one column to its role adds exactly that column name to the
role lists, whichever role was chosen. -/
lemma rolesNames_assignRole (r : Roles) (n : String) (role : ColumnRole) :
    (rolesNames (assignRole r n role)).Perm (n :: rolesNames r) := by
  rw [List.perm_iff_count]
  intro a
  cases role with
  | TARGET =>
    by_cases ht : r.target = none
    · simp [assignRole, ht, rolesNames, List.count_append, List.count_cons]
    · simp only [assignRole, if_neg ht, rolesNames, List.count_append,
        List.count_cons, List.count_nil]
      ring
  | FEATURE =>
    simp only [assignRole, rolesNames, List.count_append, List.count_cons,
      List.count_nil]
    ring
  | IDENTIFIER =>
    simp only [assignRole, rolesNames, List.count_append, List.count_cons,
      List.count_nil]
    ring
  | TIMESTAMP =>
    simp only [assignRole, rolesNames, List.count_append, List.count_cons,
      List.count_nil]
    ring
  | TEXT =>
    simp only [assignRole, rolesNames, List.count_append, List.count_cons,
      List.count_nil]
    ring
  | IGNORE =>
    simp only [assignRole, rolesNames, List.count_append, List.count_cons,
      List.count_nil]
    ring

/-- The role-assignment loop distributes exactly the processed column names
over the role lists of its accumulator. -/
lemma rolesNames_foldl (cols : List (String × ColumnProfile)) :
    ∀ r : Roles,
      (rolesNames (cols.foldl
        (fun r c => assignRole r c.1 (classify_column_role c.1 c.2)) r)).Perm
      ((cols.map Prod.fst) ++ rolesNames r) := by
  induction cols with
  | nil => intro r; simp
  | cons c cs ih =>
    intro r
    have h1 := ih (assignRole r c.1 (classify_column_role c.1 c.2))
    have h2 := rolesNames_assignRole r c.1 (classify_column_role c.1 c.2)
    have h3 := h1.trans (List.Perm.append_left (cs.map Prod.fst) h2)
    exact h3.trans List.perm_middle

/-- Unfolding equation of `infer_target_column` on a non-empty feature list. -/
lemma infer_target_column_cons (cols : List (String × ColumnProfile))
    (r : Roles) (c : String) (cs : List String) (hf : r.features = c :: cs) :
    infer_target_column cols r =
      if target_likelihood cols (pickFirstMax (target_likelihood cols) c cs)
          > 20 then
        { r with
          target := some (pickFirstMax (target_likelihood cols) c cs),
          features :=
            r.features.erase (pickFirstMax (target_likelihood cols) c cs) }
      else r := by
  unfold infer_target_column
  rw [hf]

/-- Target inference only moves one name between role lists: the names placed
by the roles are preserved up to permutation. -/
lemma rolesNames_infer (cols : List (String × ColumnProfile)) (r : Roles)
    (ht : r.target = none) :
    (rolesNames (infer_target_column cols r)).Perm (rolesNames r) := by
  cases hf : r.features with
  | nil =>
    unfold infer_target_column
    rw [hf]
  | cons c cs =>
    rw [infer_target_column_cons cols r c cs hf]
    by_cases hgt :
        target_likelihood cols (pickFirstMax (target_likelihood cols) c cs) > 20
    · rw [if_pos hgt]
      have hmem : pickFirstMax (target_likelihood cols) c cs ∈ r.features := by
        rw [hf]
        exact pickFirstMax_mem _ c cs
      have hperm : r.features.Perm
          (pickFirstMax (target_likelihood cols) c cs ::
            r.features.erase (pickFirstMax (target_likelihood cols) c cs)) :=
        List.perm_cons_erase hmem
      simp only [rolesNames, ht, Option.toList_none, Option.toList_some,
        List.nil_append, List.append_assoc, List.cons_append,
        List.singleton_append]
      exact (hperm.append_right _).symm
    · rw [if_neg hgt]

/-- C3: the role assignment of the Intelligence Classifier is a partition of
the (distinct) column names: the names distributed over
target/features/identifiers/timestamps/text/ignore are a permutation of the
input columns — so each column lands in exactly one role set, also after the
fallback target inference, which moves its choice out of the feature list —
the placed names carry no duplicate, and the target slot holds at most one
column. -/
theorem role_assignment_partition (cols : List (String × ColumnProfile))
    (h : (cols.map Prod.fst).Nodup) :
    (rolesNames (analyze_column_roles cols)).Perm (cols.map Prod.fst)
  ∧ (rolesNames (analyze_column_roles cols)).Nodup
  ∧ (analyze_column_roles cols).target.toList.length ≤ 1 := by
  have hp1 : (rolesNames (roles_pass1 cols)).Perm (cols.map Prod.fst) := by
    have := rolesNames_foldl cols {}
    simpa [roles_pass1, rolesNames] using this
  have hperm :
      (rolesNames (analyze_column_roles cols)).Perm (cols.map Prod.fst) := by
    unfold analyze_column_roles
    by_cases ht : (roles_pass1 cols).target = none
    · rw [if_pos ht]
      exact (rolesNames_infer cols _ ht).trans hp1
    · rw [if_neg ht]
      exact hp1
  refine ⟨hperm, hperm.nodup_iff.mpr h, ?_⟩
  cases (analyze_column_roles cols).target <;> simp

/-- C3 witness: a table with an identifier column, a plain feature and a
two-class column that the fallback inference adopts as target. -/
theorem role_assignment_partition_witness :
    (exampleCols.map Prod.fst).Nodup ∧
    ((rolesNames (analyze_column_roles exampleCols)).Perm
        (exampleCols.map Prod.fst)
      ∧ (rolesNames (analyze_column_roles exampleCols)).Nodup
      ∧ (analyze_column_roles exampleCols).target.toList.length ≤ 1) :=
  ⟨by decide, role_assignment_partition exampleCols (by decide)⟩

end AutoMLPlatform
